import Mathlib

/-!
Shallow embedding of the tide-rustls TLS listener (http-rs/tide-rustls).

The embedding follows the source files:
  src/tls_listener.rs          (TlsListener: configure, connect, listen,
                                is_transient_error, load_certs, load_keys,
                                handle_tls)
  src/tls_listener_builder.rs  (TlsListenerBuilder: addrs, finish)
  src/tls_listener_config.rs   (TlsListenerConfig)
  src/tcp_connection.rs        (TcpConnection)
  src/tls_listener/tls_stream_wrapper.rs (TlsStreamWrapper poll operations)

External collaborators (the file system, the rustls pemfile parsers, the
rustls set_single_cert validation, and TcpListener::bind) are abstracted as
an explicit environment of pure functions; the functions of this crate are
translated over that environment.  I/O side effects are recorded in an
explicit effect log so that "no file reading happens" claims are statable.
-/

namespace TideRustls

/-- The std io::ErrorKind values relevant to this crate (plus a few other
kinds so that "any other kind" is non-degenerate). -/
inductive ErrorKind
  | ConnectionRefused
  | ConnectionAborted
  | ConnectionReset
  | InvalidInput
  | NotFound
  | PermissionDenied
  | WouldBlock
  | Other
deriving DecidableEq

/-- std io::Error: a kind plus its display message. -/
structure IoError where
  kind : ErrorKind
  msg : String
deriving DecidableEq

/-- rustls::Certificate (abstract DER bytes). -/
structure Certificate where
  bytes : List Nat
deriving DecidableEq

/-- rustls::PrivateKey (abstract DER bytes). -/
structure PrivateKey where
  bytes : List Nat
deriving DecidableEq

/-- rustls::ServerConfig, modelled by the only part this crate sets:
the single certificate chain and key installed by set_single_cert. -/
structure ServerConfig where
  certKey : Option (List Certificate × PrivateKey)
deriving DecidableEq

/-- ServerConfig::new(NoClientAuth::new()): a fresh config with no
certificate installed yet. -/
def ServerConfig.new : ServerConfig := ⟨none⟩

/-- The TLS acceptance capability.  The standard path wraps a ServerConfig
(async_tls::TlsAcceptor::from); the builder can also install a custom
acceptor (Arc of dyn CustomTlsAcceptor), modelled by an abstract id. -/
inductive TlsAcceptor
  | standard (cfg : ServerConfig)
  | custom (id : Nat)
deriving DecidableEq

/-- TlsListenerConfig from src/tls_listener_config.rs.  Default is
Unconfigured (this is what std::mem::take leaves behind). -/
inductive TlsListenerConfig
  | Unconfigured
  | Acceptor (a : TlsAcceptor)
  | ServerConfig (cfg : TideRustls.ServerConfig)
  | Paths (cert key : String)
deriving DecidableEq

/-- TcpConnection from src/tcp_connection.rs.  Socket addresses are abstract
strings; a bound TcpListener socket is an abstract id. -/
inductive TcpConnection
  | Addrs (addrs : List String)
  | Connected (tcp : Nat)
deriving DecidableEq

/-- TlsListener from src/tls_listener.rs. -/
structure TlsListener where
  connection : TcpConnection
  config : TlsListenerConfig
deriving DecidableEq

/-- The environment of external collaborators, as pure functions:
file contents, the three rustls pemfile parsers, set_single_cert
validation, and TcpListener::bind.  The pemfile parsers return
Result of Vec or a unit error, exactly like rustls::internal::pemfile. -/
structure Env where
  files : String → Except IoError (List Nat)
  certs : List Nat → Except Unit (List Certificate)
  pkcs8_private_keys : List Nat → Except Unit (List PrivateKey)
  rsa_private_keys : List Nat → Except Unit (List PrivateKey)
  setSingleCertOk : List Certificate → PrivateKey → Bool
  setSingleCertErr : String
  bindSock : List String → Except IoError Nat

/-- Observable side effects of the listener code, recorded in order. -/
inductive Effect
  | fileOpen (path : String)
  | certAttempt
  | pkcs8Attempt
  | rsaAttempt
  | seekToStart
  | serverConfigNew
  | setSingleCert
  | bindAttempt
deriving DecidableEq

/-- std::io::BufReader over a file: the full content plus a read position.
The pemfile parsers read everything from the current position to the end
and leave the reader consumed. -/
structure BufReader where
  content : List Nat
  pos : Nat
deriving DecidableEq

/-- The bytes a parser sees when reading from the current position. -/
def BufReader.remaining (r : BufReader) : List Nat := r.content.drop r.pos

/-- Reader state after a parser consumed it to EOF. -/
def BufReader.consumed (r : BufReader) : BufReader := ⟨r.content, r.content.length⟩

/-- bufreader.seek(SeekFrom::Start(0)): rewind to the start of the file. -/
def BufReader.seekStart (r : BufReader) : BufReader := ⟨r.content, 0⟩

/-- load_certs from src/tls_listener.rs lines 183-186: open the file,
parse certificates, map a parse failure to InvalidInput "invalid cert". -/
def load_certs (env : Env) (path : String) :
    Except IoError (List Certificate) × List Effect :=
  match env.files path with
  | .error e => (.error e, [.fileOpen path])
  | .ok content =>
    match env.certs content with
    | .ok cs => (.ok cs, [.fileOpen path, .certAttempt])
    | .error _ =>
      (.error ⟨.InvalidInput, "invalid cert"⟩, [.fileOpen path, .certAttempt])

/-- The RSA fallback half of load_keys (after the seek to the start):
parse RSA keys from the rewound reader; a non-empty parse succeeds,
anything else is InvalidInput "invalid key". -/
def rsaFallback (env : Env) (r1 : BufReader) :
    Except IoError (List PrivateKey) × List Effect :=
  let r2 := r1.seekStart
  match env.rsa_private_keys r2.remaining with
  | .ok rsa =>
    if rsa.isEmpty then
      (.error ⟨.InvalidInput, "invalid key"⟩, [.seekToStart, .rsaAttempt])
    else (.ok rsa, [.seekToStart, .rsaAttempt])
  | .error _ =>
    (.error ⟨.InvalidInput, "invalid key"⟩, [.seekToStart, .rsaAttempt])

/-- load_keys from src/tls_listener.rs lines 188-205: open the file, try
PKCS#8 first; if that errs or yields no keys, seek back to the start and
try RSA; if that also errs or yields no keys, fail with InvalidInput
"invalid key". -/
def load_keys (env : Env) (path : String) :
    Except IoError (List PrivateKey) × List Effect :=
  match env.files path with
  | .error e => (.error e, [.fileOpen path])
  | .ok content =>
    let r0 : BufReader := ⟨content, 0⟩
    let r1 := r0.consumed
    match env.pkcs8_private_keys r0.remaining with
    | .ok pkcs8 =>
      if pkcs8.isEmpty then
        let (res, effs) := rsaFallback env r1
        (res, [.fileOpen path, .pkcs8Attempt] ++ effs)
      else (.ok pkcs8, [.fileOpen path, .pkcs8Attempt])
    | .error _ =>
      let (res, effs) := rsaFallback env r1
      (res, [.fileOpen path, .pkcs8Attempt] ++ effs)

/-- config.set_single_cert(certs, key): validated by rustls; on failure the
caller maps the error to InvalidInput. -/
def set_single_cert (env : Env) (cfg : ServerConfig) (cs : List Certificate)
    (k : PrivateKey) : Except IoError ServerConfig :=
  if env.setSingleCertOk cs k then .ok { cfg with certKey := some (cs, k) }
  else .error ⟨.InvalidInput, env.setSingleCertErr⟩

/-- Result of a call that can also panic (keys.remove(0) on an empty Vec). -/
inductive Outcome (α : Type)
  | ok (a : α)
  | err (e : IoError)
  | panicked
deriving DecidableEq

/-- What a configure call produces: its io::Result, the listener state
after the call, and the I/O effects it performed. -/
structure ConfigureOut where
  res : Outcome TlsAcceptor
  st : TlsListener
  effs : List Effect
deriving DecidableEq

/-- TlsListener::configure from src/tls_listener.rs lines 50-78.
std::mem::take first replaces self.config with Unconfigured; the match
result is assigned back only if no early return happens, so every error
path of the Paths branch leaves the config Unconfigured.  keys.remove(0)
on an empty vector is a panic, modelled by the panicked outcome. -/
def configure (env : Env) (l : TlsListener) : ConfigureOut :=
  match l.config with
  | .Paths cert key =>
    match load_certs env cert with
    | (.error e, effs) => ⟨.err e, ⟨l.connection, .Unconfigured⟩, effs⟩
    | (.ok cs, effs1) =>
      match load_keys env key with
      | (.error e, effs2) => ⟨.err e, ⟨l.connection, .Unconfigured⟩, effs1 ++ effs2⟩
      | (.ok ks, effs2) =>
        match ks with
        | [] => ⟨.panicked, ⟨l.connection, .Unconfigured⟩,
            effs1 ++ effs2 ++ [.serverConfigNew]⟩
        | k :: _ =>
          match set_single_cert env ServerConfig.new cs k with
          | .error e => ⟨.err e, ⟨l.connection, .Unconfigured⟩,
              effs1 ++ effs2 ++ [.serverConfigNew, .setSingleCert]⟩
          | .ok cfg =>
            ⟨.ok (.standard cfg), ⟨l.connection, .Acceptor (.standard cfg)⟩,
              effs1 ++ effs2 ++ [.serverConfigNew, .setSingleCert]⟩
  | .ServerConfig cfg =>
    ⟨.ok (.standard cfg), ⟨l.connection, .Acceptor (.standard cfg)⟩, []⟩
  | .Acceptor a => ⟨.ok a, l, []⟩
  | .Unconfigured =>
    ⟨.err ⟨.Other, "could not configure tlslistener"⟩, l, []⟩

deriving instance DecidableEq for Except

/-- What a connect call produces. -/
structure ConnectOut where
  res : Except IoError Nat
  st : TlsListener
  effs : List Effect
deriving DecidableEq

/-- TlsListener::connect from src/tls_listener.rs lines 80-91: bind only
in the Addrs state; a bind failure propagates with the connection left in
the Addrs state; in the Connected state return the socket unchanged. -/
def connect (env : Env) (l : TlsListener) : ConnectOut :=
  match l.connection with
  | .Addrs addrs =>
    match env.bindSock addrs with
    | .error e => ⟨.error e, l, [.bindAttempt]⟩
    | .ok tcp => ⟨.ok tcp, ⟨.Connected tcp, l.config⟩, [.bindAttempt]⟩
  | .Connected tcp => ⟨.ok tcp, l, []⟩

/-- is_transient_error from src/tls_listener.rs lines 168-175. -/
def is_transient_error (e : IoError) : Bool :=
  match e.kind with
  | .ConnectionRefused | .ConnectionAborted | .ConnectionReset => true
  | _ => false

/-- handle_tls from src/tls_listener.rs lines 94-126, reduced to its
observable outcome: the spawned task only logs; neither a TLS negotiation
failure nor an async-h1 (HTTP) failure is returned to the accept loop. -/
def handle_tls (tlsAccept : Except String Unit) (h1 : Except String Unit) :
    List String :=
  match tlsAccept with
  | .ok _ =>
    match h1 with
    | .ok _ => []
    | .error e => ["async-h1 error: " ++ e]
  | .error e => ["tls error: " ++ e]

/-- Observable trace of the accept loop: connections dispatched to
handle_tls, backoff sleeps performed (ms), and log lines, in order. -/
structure LoopTrace where
  handled : List Nat
  sleptMs : List Nat
  logs : List String
deriving DecidableEq

/-- The accept loop body from src/tls_listener.rs lines 149-163, run over
a finite prefix of the incoming stream (the list ending models the stream
ending).  connRes gives each accepted connection its TLS negotiation and
HTTP processing outcomes, consumed by handle_tls. -/
def processIncoming (connRes : Nat → Except String Unit × Except String Unit) :
    List (Except IoError Nat) → LoopTrace
  | [] => ⟨[], [], []⟩
  | .error e :: rest =>
    let t := processIncoming connRes rest
    if is_transient_error e then t
    else ⟨t.handled, 500 :: t.sleptMs,
      ("Error: " ++ e.msg ++ ". Pausing for 500ms.") :: t.logs⟩
  | .ok s :: rest =>
    let t := processIncoming connRes rest
    let (ta, h1) := connRes s
    ⟨s :: t.handled, t.sleptMs, handle_tls ta h1 ++ t.logs⟩

/-- Listener::listen for TlsListener, src/tls_listener.rs lines 144-165:
configure, then connect, each propagating its error; then the accept loop,
which returns Ok when the incoming stream ends. -/
def listen (env : Env) (l : TlsListener)
    (connRes : Nat → Except String Unit × Except String Unit)
    (incoming : List (Except IoError Nat)) : Outcome LoopTrace × TlsListener :=
  match (configure env l).res with
  | .err e => (.err e, (configure env l).st)
  | .panicked => (.panicked, (configure env l).st)
  | .ok _ =>
    match (connect env (configure env l).st).res with
    | .error e => (.err e, (connect env (configure env l).st).st)
    | .ok _ =>
      (.ok (processIncoming connRes incoming),
       (connect env (configure env l).st).st)

/-- TlsListenerBuilder from src/tls_listener_builder.rs: six optional
fields, all defaulting to None. -/
structure TlsListenerBuilder where
  key : Option String := none
  cert : Option String := none
  config : Option ServerConfig := none
  tls_acceptor : Option Nat := none
  tcp : Option Nat := none
  addrs : Option (List String) := none
deriving DecidableEq

/-- The second half of TlsListenerBuilder::finish (lines 186-195): the
connection group match, reached only after the TLS group matched. -/
def finishConn (tcp : Option Nat) (addrs : Option (List String))
    (config : TlsListenerConfig) : Except IoError TlsListener :=
  match tcp, addrs with
  | some tcp, none => .ok ⟨.Connected tcp, config⟩
  | none, some addrs => .ok ⟨.Addrs addrs, config⟩
  | _, _ => .error ⟨.InvalidInput, "either tcp or addrs are required"⟩

/-- TlsListenerBuilder::finish from src/tls_listener_builder.rs lines
163-198: first the TLS option group (exact patterns on the four options),
then the connection group. -/
def finish (b : TlsListenerBuilder) : Except IoError TlsListener :=
  match b.key, b.cert, b.config, b.tls_acceptor with
  | some key, some cert, none, none => finishConn b.tcp b.addrs (.Paths cert key)
  | none, none, some cfg, none => finishConn b.tcp b.addrs (.ServerConfig cfg)
  | none, none, none, some a => finishConn b.tcp b.addrs (.Acceptor (.custom a))
  | _, _, _, _ =>
    .error ⟨.InvalidInput,
      "need exactly one of cert + key, ServerConfig, or TLS acceptor"⟩

/-- TlsListenerBuilder::addrs from src/tls_listener_builder.rs lines
144-149 (named callAddrs here because the builder field is already named
addrs): the argument is the result of to_socket_addrs; on resolution
failure the builder is returned unchanged. -/
def callAddrs (b : TlsListenerBuilder) (resolved : Except Unit (List String)) :
    TlsListenerBuilder :=
  match resolved with
  | .ok socket_addrs => { b with addrs := some socket_addrs }
  | .error _ => b

/-- State of the std::sync::Mutex around the TLS session: healthy with the
session state, or poisoned with the message of the poison error. -/
inductive LockState (α : Type)
  | healthy (a : α)
  | poisoned (msg : String)
deriving DecidableEq

/-- std::task::Poll. -/
inductive Poll (α : Type)
  | Ready (a : α)
  | Pending
deriving DecidableEq

/-- The underlying TLS session poll behaviors (async_tls TlsStream),
abstracted as pure state transformers over an abstract session state. -/
structure StreamEnv where
  readFn : Nat → Poll (Except IoError Nat) × Nat
  writeFn : Nat → Poll (Except IoError Nat) × Nat
  flushFn : Nat → Poll (Except IoError Unit) × Nat
  closeFn : Nat → Poll (Except IoError Unit) × Nat

/-- TlsStreamWrapper from src/tls_listener/tls_stream_wrapper.rs:
Arc of Mutex of TlsStream, modelled by the lock state. -/
structure TlsStreamWrapper where
  lock : LockState Nat
deriving DecidableEq

/-- io::Error::new(io::ErrorKind::Other, e.to_string()) for a poison
error e. -/
def poisonIoError (msg : String) : IoError := ⟨.Other, msg⟩

/-- poll_read (tls_stream_wrapper.rs lines 17-28): lock; if poisoned,
Ready(Err); otherwise forward to the underlying session under the lock. -/
def TlsStreamWrapper.poll_read (env : StreamEnv) (w : TlsStreamWrapper) :
    Poll (Except IoError Nat) × TlsStreamWrapper :=
  match w.lock with
  | .poisoned msg => (.Ready (.error (poisonIoError msg)), w)
  | .healthy s =>
    let (r, s2) := env.readFn s
    (r, ⟨.healthy s2⟩)

/-- poll_write (tls_stream_wrapper.rs lines 31-40). -/
def TlsStreamWrapper.poll_write (env : StreamEnv) (w : TlsStreamWrapper) :
    Poll (Except IoError Nat) × TlsStreamWrapper :=
  match w.lock with
  | .poisoned msg => (.Ready (.error (poisonIoError msg)), w)
  | .healthy s =>
    let (r, s2) := env.writeFn s
    (r, ⟨.healthy s2⟩)

/-- poll_flush (tls_stream_wrapper.rs lines 42-47). -/
def TlsStreamWrapper.poll_flush (env : StreamEnv) (w : TlsStreamWrapper) :
    Poll (Except IoError Unit) × TlsStreamWrapper :=
  match w.lock with
  | .poisoned msg => (.Ready (.error (poisonIoError msg)), w)
  | .healthy s =>
    let (r, s2) := env.flushFn s
    (r, ⟨.healthy s2⟩)

/-- poll_close (tls_stream_wrapper.rs lines 49-54). -/
def TlsStreamWrapper.poll_close (env : StreamEnv) (w : TlsStreamWrapper) :
    Poll (Except IoError Unit) × TlsStreamWrapper :=
  match w.lock with
  | .poisoned msg => (.Ready (.error (poisonIoError msg)), w)
  | .healthy s =>
    let (r, s2) := env.closeFn s
    (r, ⟨.healthy s2⟩)

/-- Exactly one of two booleans is true. -/
def exactlyOneOfTwo (p q : Bool) : Bool := (p && !q) || (!p && q)

/-- Exactly one of three booleans is true. -/
def exactlyOneOfThree (p q r : Bool) : Bool :=
  (p && !q && !r) || (!p && q && !r) || (!p && !q && r)

/-- The success condition of claim C2, read literally from its words: the
cert+key option counts as set when both paths are present, exactly one
option of each group is set, and the one explicitly listed extra failure
case is a cert without a key. -/
def finishClaimOk (b : TlsListenerBuilder) : Bool :=
  exactlyOneOfThree (b.cert.isSome && b.key.isSome) b.config.isSome
      b.tls_acceptor.isSome
    && exactlyOneOfTwo b.tcp.isSome b.addrs.isSome
    && !(b.cert.isSome && !b.key.isSome)

/-- The TLS option group condition finish actually implements: one of the
three exact patterns of the four-way match (both key and cert with nothing
else, config alone, tls_acceptor alone). -/
def tlsGroupOk (b : TlsListenerBuilder) : Bool :=
  (b.key.isSome && b.cert.isSome && !b.config.isSome && !b.tls_acceptor.isSome)
    || (!b.key.isSome && !b.cert.isSome && b.config.isSome && !b.tls_acceptor.isSome)
    || (!b.key.isSome && !b.cert.isSome && !b.config.isSome && b.tls_acceptor.isSome)

/-- The full success condition finish actually implements. -/
def finishOk (b : TlsListenerBuilder) : Bool :=
  tlsGroupOk b && exactlyOneOfTwo b.tcp.isSome b.addrs.isSome

/-- Restatement of load_keys following the words of claim C3: PKCS#8 is
attempted first on the file content; if it errs or yields no keys, RSA is
attempted on the same full content (the re-read from the start); the
PKCS#8 keys win when non-empty, else the RSA keys when non-empty, else an
InvalidInput format error; a file that cannot be opened propagates its
I/O error.  To be compared with the source-translated load_keys. -/
def load_keys_spec (env : Env) (path : String) :
    Except IoError (List PrivateKey) :=
  match env.files path with
  | .error e => .error e
  | .ok content =>
    match env.pkcs8_private_keys content with
    | .ok pkcs8 =>
      if pkcs8.isEmpty then
        match env.rsa_private_keys content with
        | .ok rsa =>
          if rsa.isEmpty then .error ⟨.InvalidInput, "invalid key"⟩
          else .ok rsa
        | .error _ => .error ⟨.InvalidInput, "invalid key"⟩
      else .ok pkcs8
    | .error _ =>
      match env.rsa_private_keys content with
      | .ok rsa =>
        if rsa.isEmpty then .error ⟨.InvalidInput, "invalid key"⟩
        else .ok rsa
      | .error _ => .error ⟨.InvalidInput, "invalid key"⟩

/-- A concrete environment in which cert.pem and key.pem exist and parse
(the key as PKCS#8), used to instantiate witnesses. -/
def envA : Env :=
  { files := fun p =>
      if p = "cert.pem" then .ok [1]
      else if p = "key.pem" then .ok [2]
      else .error ⟨.NotFound, "no such file"⟩
    certs := fun c => .ok [⟨c⟩]
    pkcs8_private_keys := fun c => .ok [⟨c⟩]
    rsa_private_keys := fun _ => .error ()
    setSingleCertOk := fun _ _ => true
    setSingleCertErr := "sign error"
    bindSock := fun _ => .ok 0 }

/-- A concrete environment in which no file can be opened. -/
def envMissingCert : Env :=
  { files := fun _ => .error ⟨.NotFound, "no such file"⟩
    certs := fun _ => .error ()
    pkcs8_private_keys := fun _ => .error ()
    rsa_private_keys := fun _ => .error ()
    setSingleCertOk := fun _ _ => true
    setSingleCertErr := "sign error"
    bindSock := fun _ => .ok 0 }

/-- A concrete underlying TLS session behavior, used for witnesses. -/
def streamEnvA : StreamEnv :=
  { readFn := fun s => (.Ready (.ok 1), s)
    writeFn := fun s => (.Ready (.ok 1), s)
    flushFn := fun s => (.Ready (.ok ()), s)
    closeFn := fun s => (.Ready (.ok ()), s) }

/-- A builder on which no method was called. -/
def emptyBuilder : TlsListenerBuilder := {}

/-- A builder with a dangling key path (no cert path) next to a prebuilt
ServerConfig, plus a tcp socket. -/
def strayKeyBuilder : TlsListenerBuilder :=
  { key := some "k.pem", config := some ServerConfig.new, tcp := some 7 }

/-- A builder with cert and key paths and a tcp socket. -/
def pathsBuilder : TlsListenerBuilder :=
  { key := some "key.pem", cert := some "cert.pem", tcp := some 3 }

/-- A builder with a prebuilt ServerConfig and a tcp socket. -/
def configBuilder : TlsListenerBuilder :=
  { config := some ServerConfig.new, tcp := some 1 }

/-- A builder with only a prebuilt ServerConfig (no connection input). -/
def lonelyConfigBuilder : TlsListenerBuilder :=
  { config := some ServerConfig.new }

/-- Helper: a successful rsaFallback result is a non-empty key list. -/
theorem rsaFallback_ok_ne_nil {env : Env} {r : BufReader}
    {ks : List PrivateKey}
    (h : (rsaFallback env r).1 = .ok ks) : ks ≠ [] := by
  unfold rsaFallback at h
  simp only [BufReader.seekStart, BufReader.remaining, List.drop_zero] at h
  cases hr : env.rsa_private_keys r.content with
  | error u => rw [hr] at h; simp at h
  | ok rsa =>
    rw [hr] at h
    cases he : rsa.isEmpty with
    | true => simp [he] at h
    | false =>
      simp [he] at h
      intro hnil
      rw [h, hnil] at he
      simp at he

/-- Helper: a successful load_keys result is a non-empty key list (both
success paths are guarded by an isEmpty check). -/
theorem load_keys_ok_ne_nil {env : Env} {path : String}
    {ks : List PrivateKey}
    (h : (load_keys env path).1 = .ok ks) : ks ≠ [] := by
  unfold load_keys at h
  cases hf : env.files path with
  | error e => rw [hf] at h; simp at h
  | ok content =>
    rw [hf] at h
    simp only [BufReader.remaining, BufReader.consumed, List.drop_zero] at h
    cases hp : env.pkcs8_private_keys content with
    | ok pkcs8 =>
      rw [hp] at h
      cases he : pkcs8.isEmpty with
      | true =>
        simp only [he, if_true] at h
        rcases hRF : rsaFallback env ⟨content, content.length⟩ with ⟨res, effs2⟩
        rw [hRF] at h
        simp only at h
        have hres : (rsaFallback env ⟨content, content.length⟩).1 = .ok ks := by
          rw [hRF]
          simpa using h
        exact rsaFallback_ok_ne_nil hres
      | false =>
        simp [he] at h
        intro hnil
        rw [h, hnil] at he
        simp at he
    | error u =>
      rw [hp] at h
      simp only at h
      rcases hRF : rsaFallback env ⟨content, content.length⟩ with ⟨res, effs2⟩
      rw [hRF] at h
      simp only at h
      have hres : (rsaFallback env ⟨content, content.length⟩).1 = .ok ks := by
        rw [hRF]
        simpa using h
      exact rsaFallback_ok_ne_nil hres

/-- Claim C1: in the accept loop, a transient accept error (kind
connection-refused, connection-aborted or connection-reset) continues to
the next accept attempt with no backoff and no log; any other accept error
logs and pushes exactly one 500 ms backoff pause; in neither case does the
error terminate the loop (the rest of the stream is still processed, as
both equations show). -/
theorem claim_C1_accept_loop_backoff
    (connRes : Nat → Except String Unit × Except String Unit)
    (e : IoError) (rest : List (Except IoError Nat)) :
    (is_transient_error e = true →
      processIncoming connRes (.error e :: rest) = processIncoming connRes rest) ∧
    (is_transient_error e = false →
      processIncoming connRes (.error e :: rest) =
        ⟨(processIncoming connRes rest).handled,
         500 :: (processIncoming connRes rest).sleptMs,
         ("Error: " ++ e.msg ++ ". Pausing for 500ms.") ::
           (processIncoming connRes rest).logs⟩) ∧
    (is_transient_error e = true ↔
      e.kind = .ConnectionRefused ∨ e.kind = .ConnectionAborted ∨
        e.kind = .ConnectionReset) := by
  refine ⟨?_, ?_, ?_⟩
  · intro h
    simp [processIncoming, h]
  · intro h
    simp [processIncoming, h]
  · unfold is_transient_error
    rcases e with ⟨k, m⟩
    cases k <;> simp

/-- Witness for claim C1 at a concrete transient error and a concrete
non-transient error. -/
theorem claim_C1_accept_loop_backoff_witness :
    processIncoming (fun _ => (.ok (), .ok ()))
        [.error ⟨.ConnectionReset, "peer"⟩] =
      processIncoming (fun _ => (.ok (), .ok ())) [] ∧
    processIncoming (fun _ => (.ok (), .ok ())) [.error ⟨.Other, "emfile"⟩] =
      ⟨(processIncoming (fun _ => (.ok (), .ok ())) []).handled,
       500 :: (processIncoming (fun _ => (.ok (), .ok ())) []).sleptMs,
       ("Error: " ++ "emfile" ++ ". Pausing for 500ms.") ::
         (processIncoming (fun _ => (.ok (), .ok ())) []).logs⟩ :=
  ⟨(claim_C1_accept_loop_backoff _ ⟨.ConnectionReset, "peer"⟩ []).1 rfl,
   (claim_C1_accept_loop_backoff _ ⟨.Other, "emfile"⟩ []).2.1 rfl⟩

/-- Claim C3: load_keys propagates a file-open error; otherwise it tries
PKCS#8 first and falls back to RSA on the same full file content (the
reader is rewound before the RSA attempt), returning the PKCS#8 keys when
non-empty, else the RSA keys when non-empty, else the InvalidInput format
error.  Stated as equality with the spec-worded restatement. -/
theorem claim_C3_load_keys_fallback (env : Env) (path : String) :
    (load_keys env path).1 = load_keys_spec env path := by
  unfold load_keys load_keys_spec
  cases hf : env.files path with
  | error e => simp
  | ok content =>
    simp only [BufReader.remaining, BufReader.consumed, BufReader.seekStart,
      List.drop_zero]
    cases hp : env.pkcs8_private_keys content with
    | ok pkcs8 =>
      by_cases he : pkcs8.isEmpty
      · simp only [he, if_true]
        unfold rsaFallback
        simp only [BufReader.remaining, BufReader.seekStart, List.drop_zero]
        cases hr : env.rsa_private_keys content with
        | ok rsa => by_cases hre : rsa.isEmpty <;> simp [hre]
        | error u => simp
      · simp [he]
    | error u =>
      simp only
      unfold rsaFallback
      simp only [BufReader.remaining, BufReader.seekStart, List.drop_zero]
      cases hr : env.rsa_private_keys content with
      | ok rsa => by_cases hre : rsa.isEmpty <;> simp [hre]
      | error u2 => simp

/-- Claim C10: a successful load_keys always returns a non-empty key
vector, and consequently the keys.remove(0) call in the Paths branch of
configure never panics (configure never produces the panicked outcome). -/
theorem claim_C10_remove_never_panics :
    (∀ (env : Env) (path : String) (ks : List PrivateKey) (effs : List Effect),
      load_keys env path = (.ok ks, effs) → ks ≠ []) ∧
    (∀ (env : Env) (l : TlsListener), (configure env l).res ≠ .panicked) := by
  constructor
  · intro env path ks effs h
    exact load_keys_ok_ne_nil (by rw [h])
  · intro env l
    unfold configure
    rcases l with ⟨conn, cfg⟩
    cases cfg with
    | Unconfigured => simp
    | Acceptor a => simp
    | ServerConfig c => simp
    | Paths c k =>
      simp only
      rcases hc : load_certs env c with ⟨res1, effs1⟩
      cases res1 with
      | error e => simp
      | ok cs =>
        simp only
        rcases hk : load_keys env k with ⟨res2, effs2⟩
        cases res2 with
        | error e => simp
        | ok ks =>
          cases ks with
          | nil =>
            exact absurd rfl (load_keys_ok_ne_nil (by rw [hk]))
          | cons k0 ktl =>
            simp only
            cases set_single_cert env ServerConfig.new cs k0 with
            | error e => simp
            | ok cfg2 => simp

/-- Witness for claim C10 at a concrete environment whose key file parses
as PKCS#8. -/
theorem claim_C10_remove_never_panics_witness :
    ([⟨[2]⟩] : List PrivateKey) ≠ [] :=
  claim_C10_remove_never_panics.1 envA "key.pem" [⟨[2]⟩]
    [.fileOpen "key.pem", .pkcs8Attempt] (by decide)

/-- Helper: a configure call that returns an acceptor leaves the listener
with exactly that acceptor stored and the connection unchanged. -/
theorem configure_ok_st {env : Env} {l : TlsListener} {a : TlsAcceptor}
    (h : (configure env l).res = .ok a) :
    (configure env l).st = ⟨l.connection, .Acceptor a⟩ := by
  rcases l with ⟨conn, cfg⟩
  unfold configure at h ⊢
  cases cfg with
  | Unconfigured => simp at h
  | Acceptor b =>
    simp only at h ⊢
    have hb : b = a := by simpa using h
    rw [hb]
  | ServerConfig c =>
    simp only at h ⊢
    have hb : TlsAcceptor.standard c = a := by simpa using h
    rw [hb]
  | Paths cert key =>
    simp only at h ⊢
    rcases hc : load_certs env cert with ⟨res1, effs1⟩
    rw [hc] at h
    cases res1 with
    | error e => simp at h
    | ok cs =>
      simp only at h ⊢
      rcases hk : load_keys env key with ⟨res2, effs2⟩
      rw [hk] at h
      cases res2 with
      | error e => simp at h
      | ok ks =>
        cases ks with
        | nil => simp at h
        | cons k0 ktl =>
          simp only at h ⊢
          cases hs : set_single_cert env ServerConfig.new cs k0 with
          | error e => rw [hs] at h; simp at h
          | ok cfg2 =>
            rw [hs] at h
            have hb : TlsAcceptor.standard cfg2 = a := by simpa using h
            simp [hb]

/-- Helper: every error path of the Paths branch of configure leaves the
configuration Unconfigured (the assignment of the match result never runs,
and std::mem::take already replaced the config with its default). -/
theorem configure_paths_err_st {env : Env} {conn : TcpConnection}
    {cert key : String} {e : IoError}
    (h : (configure env (⟨conn, .Paths cert key⟩ : TlsListener)).res = .err e) :
    (configure env (⟨conn, .Paths cert key⟩ : TlsListener)).st =
      ⟨conn, .Unconfigured⟩ := by
  unfold configure at h ⊢
  simp only at h ⊢
  rcases hc : load_certs env cert with ⟨res1, effs1⟩
  rw [hc] at h
  cases res1 with
  | error e1 => simp
  | ok cs =>
    simp only at h ⊢
    rcases hk : load_keys env key with ⟨res2, effs2⟩
    rw [hk] at h
    cases res2 with
    | error e2 => simp
    | ok ks =>
      cases ks with
      | nil => simp at h ⊢
      | cons k0 ktl =>
        simp only at h ⊢
        cases hs : set_single_cert env ServerConfig.new cs k0 with
        | error e3 => simp
        | ok cfg2 => rw [hs] at h; simp at h

/-- Claim C4: configure is memoizing and idempotent after success.  If a
configure call returned an acceptor, the configuration is in the
resolved-acceptor state, and the next configure call returns the same
acceptor, leaves the state unchanged and performs no effects (in
particular no file reading, key parsing or server-config construction);
the ServerConfig variant likewise resolves with an empty effect list, so
with no file I/O. -/
theorem claim_C4_configure_memoized (env : Env) (l : TlsListener)
    (a : TlsAcceptor) (h : (configure env l).res = .ok a) :
    (configure env l).st.config = .Acceptor a ∧
    configure env (configure env l).st = ⟨.ok a, (configure env l).st, []⟩ ∧
    (∀ (conn : TcpConnection) (cfg : ServerConfig),
      (configure env (⟨conn, .ServerConfig cfg⟩ : TlsListener)).effs = []) := by
  have hst := configure_ok_st h
  refine ⟨by rw [hst], ?_, fun conn cfg => rfl⟩
  rw [hst]
  rfl

/-- Witness for claim C4: a second configure call on a listener resolved
from a prebuilt ServerConfig returns the cached acceptor with no
effects. -/
theorem claim_C4_configure_memoized_witness :
    configure envA
        (configure envA
          (⟨.Connected 1, .ServerConfig ServerConfig.new⟩ : TlsListener)).st =
      ⟨.ok (.standard ServerConfig.new),
       (configure envA
         (⟨.Connected 1, .ServerConfig ServerConfig.new⟩ : TlsListener)).st,
       []⟩ :=
  (claim_C4_configure_memoized envA
    ⟨.Connected 1, .ServerConfig ServerConfig.new⟩
    (.standard ServerConfig.new) rfl).2.1

/-- Claim C9: the connection source goes from address list to bound socket
at most once, on the first successful connect; a listener already bound
returns its socket unchanged with no bind attempt, so repeated connect
calls are idempotent; a failed bind leaves the state unchanged. -/
theorem claim_C9_connect_idempotent (env : Env) (l : TlsListener) :
    (∀ tcp : Nat, l.connection = .Connected tcp →
      connect env l = ⟨.ok tcp, l, []⟩) ∧
    (∀ tcp : Nat, (connect env l).res = .ok tcp →
      (connect env l).st.connection = .Connected tcp ∧
      connect env (connect env l).st = ⟨.ok tcp, (connect env l).st, []⟩) ∧
    (∀ e : IoError, (connect env l).res = .error e → (connect env l).st = l) := by
  rcases l with ⟨conn, cfg⟩
  refine ⟨?_, ?_, ?_⟩
  · intro tcp h
    simp only at h
    subst h
    rfl
  · intro tcp h
    cases conn with
    | Connected t =>
      have ht : t = tcp := by
        simpa [connect] using h
      subst ht
      exact ⟨rfl, rfl⟩
    | Addrs addrs =>
      unfold connect at h ⊢
      simp only at h ⊢
      cases hb : env.bindSock addrs with
      | error e => rw [hb] at h; simp at h
      | ok t =>
        rw [hb] at h
        have ht : t = tcp := by simpa using h
        subst ht
        exact ⟨rfl, rfl⟩
  · intro e h
    cases conn with
    | Connected t => simp [connect] at h
    | Addrs addrs =>
      unfold connect at h ⊢
      simp only at h ⊢
      cases hb : env.bindSock addrs with
      | error e1 => simp
      | ok t => rw [hb] at h; simp at h

/-- Witness for claim C9 at a concrete bound listener. -/
theorem claim_C9_connect_idempotent_witness :
    connect envA (⟨.Connected 5, .Unconfigured⟩ : TlsListener) =
      ⟨.ok 5, ⟨.Connected 5, .Unconfigured⟩, []⟩ :=
  (claim_C9_connect_idempotent envA ⟨.Connected 5, .Unconfigured⟩).1 5 rfl

/-- Claim C5: listen returns an error exactly when configure or connect
fails before the accept loop starts; once both have succeeded the result
is Ok with the trace of the loop, for every incoming stream and every
per-connection negotiation or HTTP outcome, so no accept-time or
per-connection failure makes listen return an error; Ok is reached when
the incoming stream ends. -/
theorem claim_C5_listen_error_boundary (env : Env) (l : TlsListener)
    (connRes : Nat → Except String Unit × Except String Unit)
    (incoming : List (Except IoError Nat)) :
    (∀ e, (configure env l).res = .err e →
      (listen env l connRes incoming).1 = .err e) ∧
    (∀ a e, (configure env l).res = .ok a →
      (connect env (configure env l).st).res = .error e →
      (listen env l connRes incoming).1 = .err e) ∧
    (∀ a tcp, (configure env l).res = .ok a →
      (connect env (configure env l).st).res = .ok tcp →
      (listen env l connRes incoming).1 =
        .ok (processIncoming connRes incoming)) ∧
    (∀ e, (listen env l connRes incoming).1 = .err e →
      (configure env l).res = .err e ∨
        ((∃ a, (configure env l).res = .ok a) ∧
          (connect env (configure env l).st).res = .error e)) := by
  unfold listen
  cases hc : (configure env l).res with
  | err e0 =>
    refine ⟨?_, ?_, ?_, ?_⟩
    · intro e h
      simp at h
      simp [h]
    · intro a e h
      simp at h
    · intro a tcp h
      simp at h
    · intro e h
      simp at h
      left
      simp [h]
  | panicked =>
    refine ⟨?_, ?_, ?_, ?_⟩
    · intro e h
      simp at h
    · intro a e h
      simp at h
    · intro a tcp h
      simp at h
    · intro e h
      simp at h
  | ok a0 =>
    cases hcn : (connect env (configure env l).st).res with
    | error e2 =>
      refine ⟨?_, ?_, ?_, ?_⟩
      · intro e h
        simp at h
      · intro a e _ h
        simp at h
        simp [h]
      · intro a tcp _ h
        simp at h
      · intro e h
        simp at h
        right
        exact ⟨⟨a0, rfl⟩, by simp [h]⟩
    | ok t =>
      refine ⟨?_, ?_, ?_, ?_⟩
      · intro e h
        simp at h
      · intro a e _ h
        simp at h
      · intro a tcp _ _
        rfl
      · intro e h
        simp at h

/-- Witness for claim C5: a fully resolved listener on a concrete
environment returns Ok with the empty trace on an empty incoming
stream. -/
theorem claim_C5_listen_error_boundary_witness :
    (listen envA (⟨.Connected 1, .ServerConfig ServerConfig.new⟩ : TlsListener)
        (fun _ => (.ok (), .ok ())) []).1 =
      .ok (processIncoming (fun _ => (.ok (), .ok ())) []) :=
  (claim_C5_listen_error_boundary envA
      ⟨.Connected 1, .ServerConfig ServerConfig.new⟩
      (fun _ => (.ok (), .ok ())) []).2.2.1
    (.standard ServerConfig.new) 1 rfl rfl

/-- Claim C2 counterexample: a builder carrying a dangling key path (no
cert path) next to a prebuilt ServerConfig and a tcp socket.  Read
literally, the claim counts the cert+key option as not set (only the key
is present), so exactly one TLS option (the config) is set and it is not
the cert-without-key case, hence the claim predicts a listener; finish
nevertheless fails, because its four-way match also rejects a dangling
key. -/
theorem claim_C2_finish_counterexample :
    finishClaimOk strayKeyBuilder = true ∧
    finish strayKeyBuilder =
      .error ⟨.InvalidInput,
        "need exactly one of cert + key, ServerConfig, or TLS acceptor"⟩ :=
  ⟨rfl, rfl⟩

/-- Claim C2, amended: finish returns a listener if and only if the four
TLS options match one of the exact patterns (both cert and key with
config and acceptor unset, or config alone, or acceptor alone — so a
dangling key without a cert also invalidates, not only a cert without a
key) and exactly one of tcp/addrs is set; in every other case it returns
an invalid-input error and no listener. -/
theorem claim_C2_finish_validation (b : TlsListenerBuilder) :
    ((∃ l, finish b = .ok l) ↔ finishOk b = true) ∧
    (finishOk b = false → ∃ m, finish b = .error ⟨.InvalidInput, m⟩) := by
  rcases b with ⟨k, c, cfg, a, t, ad⟩
  cases k <;> cases c <;> cases cfg <;> cases a <;> cases t <;> cases ad <;>
    simp [finish, finishConn, finishOk, tlsGroupOk, exactlyOneOfTwo]

/-- Witness for the amended claim C2: the invalid stray-key builder gets
an invalid-input error, and a valid config+tcp builder succeeds. -/
theorem claim_C2_finish_validation_witness :
    (∃ m, finish strayKeyBuilder = .error ⟨.InvalidInput, m⟩) ∧
    finishOk configBuilder = true :=
  ⟨(claim_C2_finish_validation strayKeyBuilder).2 rfl,
   (claim_C2_finish_validation configBuilder).1.mp ⟨_, rfl⟩⟩

/-- Claim C6 counterexample: a listener produced by a successful finish
(paths variant), resolved in an environment where the cert file cannot be
opened.  The first configure call fails with the file error and leaves
the configuration Unconfigured (mem::take ran, the assignment did not),
so the second configure call does return the internal-consistency error,
contradicting the claim for sequences that contain a failed resolution
attempt. -/
theorem claim_C6_unconfigured_counterexample :
    finish pathsBuilder =
      .ok ⟨.Connected 3, .Paths "cert.pem" "key.pem"⟩ ∧
    (configure envMissingCert
        (⟨.Connected 3, .Paths "cert.pem" "key.pem"⟩ : TlsListener)).res =
      .err ⟨.NotFound, "no such file"⟩ ∧
    (configure envMissingCert
        (configure envMissingCert
          (⟨.Connected 3, .Paths "cert.pem" "key.pem"⟩ : TlsListener)).st).res =
      .err ⟨.Other, "could not configure tlslistener"⟩ :=
  ⟨rfl, rfl, rfl⟩

/-- Claim C6, amended: a successful finish never produces an Unconfigured
configuration, so the first configure call never takes the
internal-consistency branch, and after a configure call that returned an
acceptor no later call returns the could-not-configure error; but the
invariant is not preserved by a failed resolution: every error path of the
Paths branch resets the configuration to Unconfigured, and every configure
call in the Unconfigured state returns the could-not-configure error. -/
theorem claim_C6_unconfigured_unreachable (env : Env) (b : TlsListenerBuilder)
    (l : TlsListener) (h : finish b = .ok l) :
    l.config ≠ .Unconfigured ∧
    (∀ a, (configure env l).res = .ok a →
      (configure env (configure env l).st).res ≠
        .err ⟨.Other, "could not configure tlslistener"⟩) ∧
    (∀ conn, (configure env (⟨conn, .Unconfigured⟩ : TlsListener)).res =
      .err ⟨.Other, "could not configure tlslistener"⟩) ∧
    (∀ conn cert key e,
      (configure env (⟨conn, .Paths cert key⟩ : TlsListener)).res = .err e →
      (configure env (⟨conn, .Paths cert key⟩ : TlsListener)).st =
        ⟨conn, .Unconfigured⟩) := by
  refine ⟨?_, ?_, fun conn => rfl, fun conn cert key e he => configure_paths_err_st he⟩
  · unfold finish at h
    split at h
    · unfold finishConn at h
      split at h
      · injection h with h1
        subst h1
        simp
      · injection h with h1
        subst h1
        simp
      · simp at h
    · unfold finishConn at h
      split at h
      · injection h with h1
        subst h1
        simp
      · injection h with h1
        subst h1
        simp
      · simp at h
    · unfold finishConn at h
      split at h
      · injection h with h1
        subst h1
        simp
      · injection h with h1
        subst h1
        simp
      · simp at h
    · simp at h
  · intro a ha
    have hst := configure_ok_st ha
    rw [hst]
    intro hbad
    simp [configure] at hbad

/-- Witness for the amended claim C6: the config+tcp builder yields a
listener that is not Unconfigured and whose second configure call does not
return the internal error. -/
theorem claim_C6_unconfigured_unreachable_witness :
    ((⟨.Connected 1, .ServerConfig ServerConfig.new⟩ : TlsListener).config ≠
      .Unconfigured) ∧
    (configure envA
        (configure envA
          (⟨.Connected 1, .ServerConfig ServerConfig.new⟩ : TlsListener)).st).res ≠
      .err ⟨.Other, "could not configure tlslistener"⟩ :=
  ⟨(claim_C6_unconfigured_unreachable envA configBuilder
      ⟨.Connected 1, .ServerConfig ServerConfig.new⟩ rfl).1,
   (claim_C6_unconfigured_unreachable envA configBuilder
      ⟨.Connected 1, .ServerConfig ServerConfig.new⟩ rfl).2.1
     (.standard ServerConfig.new) rfl⟩

/-- Claim C7 counterexample: a builder given only a failing addrs call
(and nothing else) does fail at finish, but with the TLS-group error
message, not with the claimed either-tcp-or-addrs message, because the
TLS option group is matched first. -/
theorem claim_C7_addrs_counterexample :
    callAddrs emptyBuilder (.error ()) = emptyBuilder ∧
    finish (callAddrs emptyBuilder (.error ())) =
      .error ⟨.InvalidInput,
        "need exactly one of cert + key, ServerConfig, or TLS acceptor"⟩ ∧
    finish (callAddrs emptyBuilder (.error ())) ≠
      .error ⟨.InvalidInput, "either tcp or addrs are required"⟩ :=
  ⟨rfl, rfl, by decide⟩

/-- Claim C7, amended: an addrs call whose resolution fails leaves the
builder unchanged (no error recorded or propagated), and a builder whose
TLS option group is validly set, with no tcp socket and no surviving
addresses, fails at finish with the either-tcp-or-addrs invalid-input
error rather than a resolution error; with an invalid TLS group the
finish error is the TLS-group invalid-input message instead. -/
theorem claim_C7_addrs_failure_swallowed (b : TlsListenerBuilder) :
    callAddrs b (.error ()) = b ∧
    (tlsGroupOk b = true → b.tcp = none → b.addrs = none →
      finish b = .error ⟨.InvalidInput, "either tcp or addrs are required"⟩) := by
  constructor
  · rfl
  · intro hg ht ha
    rcases b with ⟨k, c, cfg, a, t, ad⟩
    simp only at hg ht ha
    subst ht
    subst ha
    cases k <;> cases c <;> cases cfg <;> cases a <;>
      simp [finish, finishConn, tlsGroupOk] at hg ⊢

/-- Witness for the amended claim C7: a builder with only a prebuilt
config (its sole addrs call having failed) errs with the
either-tcp-or-addrs message. -/
theorem claim_C7_addrs_failure_swallowed_witness :
    callAddrs lonelyConfigBuilder (.error ()) = lonelyConfigBuilder ∧
    finish lonelyConfigBuilder =
      .error ⟨.InvalidInput, "either tcp or addrs are required"⟩ :=
  ⟨(claim_C7_addrs_failure_swallowed lonelyConfigBuilder).1,
   (claim_C7_addrs_failure_swallowed lonelyConfigBuilder).2 rfl rfl rfl⟩

/-- Claim C8: each of the four poll operations of the stream wrapper
first takes the lock; on a poisoned lock it completes immediately with
Poll::Ready carrying an io error of kind Other built from the poison
message (no pending, and the model has no panic outcome); on a healthy
lock it forwards the operation to the underlying TLS session under the
lock, returning the result of that operation and the updated session. -/
theorem claim_C8_stream_wrapper_lock (env : StreamEnv) (w : TlsStreamWrapper) :
    (∀ msg, w.lock = .poisoned msg →
      w.poll_read env = (.Ready (.error ⟨.Other, msg⟩), w) ∧
      w.poll_write env = (.Ready (.error ⟨.Other, msg⟩), w) ∧
      w.poll_flush env = (.Ready (.error ⟨.Other, msg⟩), w) ∧
      w.poll_close env = (.Ready (.error ⟨.Other, msg⟩), w)) ∧
    (∀ s, w.lock = .healthy s →
      w.poll_read env = ((env.readFn s).1, ⟨.healthy (env.readFn s).2⟩) ∧
      w.poll_write env = ((env.writeFn s).1, ⟨.healthy (env.writeFn s).2⟩) ∧
      w.poll_flush env = ((env.flushFn s).1, ⟨.healthy (env.flushFn s).2⟩) ∧
      w.poll_close env = ((env.closeFn s).1, ⟨.healthy (env.closeFn s).2⟩)) := by
  rcases w with ⟨lock⟩
  constructor
  · intro msg h
    simp only at h
    subst h
    exact ⟨rfl, rfl, rfl, rfl⟩
  · intro s h
    simp only at h
    subst h
    exact ⟨rfl, rfl, rfl, rfl⟩

/-- Witness for claim C8 at a poisoned and at a healthy wrapper. -/
theorem claim_C8_stream_wrapper_lock_witness :
    ((⟨.poisoned "lock poisoned"⟩ : TlsStreamWrapper).poll_read streamEnvA =
      (.Ready (.error ⟨.Other, "lock poisoned"⟩),
       (⟨.poisoned "lock poisoned"⟩ : TlsStreamWrapper))) ∧
    ((⟨.healthy 0⟩ : TlsStreamWrapper).poll_write streamEnvA =
      ((streamEnvA.writeFn 0).1, ⟨.healthy (streamEnvA.writeFn 0).2⟩)) :=
  ⟨((claim_C8_stream_wrapper_lock streamEnvA ⟨.poisoned "lock poisoned"⟩).1
      "lock poisoned" rfl).1,
   ((claim_C8_stream_wrapper_lock streamEnvA ⟨.healthy 0⟩).2 0 rfl).2.1⟩

end TideRustls
